import Mathlib

/-!
Verification of `src/hello_world.py`.

The program reads the system clock twice, formats the first read as
`YYYYMMDD_HHMMSS` to build a filename `hello_world_<stamp>.md`, formats the
second read as `YYYY-MM-DD HH:MM:SS` inside a fixed markdown body, writes the
body to the file with a scoped (`with open`) handle, returns the filename, and
the entry point prints `Created file: <filename>`.

The embedding makes the two clock reads explicit inputs (`t1`, `t2`), models
the filesystem as a partial map from names to contents plus a list of open
handles, and models I/O faults with an oracle saying whether the open and the
write calls succeed.
-/

namespace HelloWorld

/-- A calendar date-time value with second precision, as returned by
`datetime.now()` in the source. -/
structure DateTime where
  year : Nat
  month : Nat
  day : Nat
  hour : Nat
  minute : Nat
  second : Nat
deriving DecidableEq, Repr

/-- The invariants of the values `datetime.now()` can return: the Python
`datetime` type enforces month, day, hour, minute and second ranges and
`year ≤ 9999`; the system clock (Unix time) never yields a year below 1970,
so the year prints as exactly four digits. -/
def DateTime.Valid (t : DateTime) : Prop :=
  1000 ≤ t.year ∧ t.year ≤ 9999 ∧ 1 ≤ t.month ∧ t.month ≤ 12 ∧
  1 ≤ t.day ∧ t.day ≤ 31 ∧ t.hour ≤ 23 ∧ t.minute ≤ 59 ∧ t.second ≤ 59

instance (t : DateTime) : Decidable t.Valid := by
  unfold DateTime.Valid; infer_instance

/-- Model of the strftime zero-padded two-digit conversion (`%m`, `%d`, `%H`, `%M`, `%S`):
for the field values `datetime` allows (all below 100) the output is exactly
the two decimal digits of the value. -/
def pad2 (n : Nat) : List Char :=
  [Nat.digitChar (n / 10), Nat.digitChar (n % 10)]

/-- Model of the strftime `%Y` conversion for the years the clock returns
(1000–9999): exactly the four decimal digits of the year. -/
def pad4 (n : Nat) : List Char :=
  [Nat.digitChar (n / 1000), Nat.digitChar (n / 100 % 10),
   Nat.digitChar (n / 10 % 10), Nat.digitChar (n % 10)]

/-- Model of `datetime.now().strftime("%Y%m%d_%H%M%S")` (line 8 of the source). -/
def fmtCompact (t : DateTime) : String :=
  ⟨pad4 t.year ++ pad2 t.month ++ pad2 t.day ++ ['_'] ++
   pad2 t.hour ++ pad2 t.minute ++ pad2 t.second⟩

/-- Model of `datetime.now().strftime("%Y-%m-%d %H:%M:%S")` (line 13 of the source). -/
def fmtDisplay (t : DateTime) : String :=
  ⟨pad4 t.year ++ ['-'] ++ pad2 t.month ++ ['-'] ++ pad2 t.day ++ [' '] ++
   pad2 t.hour ++ [':'] ++ pad2 t.minute ++ [':'] ++ pad2 t.second⟩

/-- Model of `filename = f"hello_world_{timestamp}.md"` (line 9), where `t1` is the
first clock read. -/
def filenameOf (t1 : DateTime) : String :=
  "hello_world_" ++ fmtCompact t1 ++ ".md"

/-- The `content` f-string (lines 11–16), where `t2` is the second clock
read: heading, blank line, generated-at line, blank line, message line,
closing newline before the final `\"\"\"`. -/
def contentOf (t2 : DateTime) : String :=
  "# Hello World\n\nGenerated at: " ++ fmtDisplay t2 ++
  "\n\n**Message:** Hello World!\n"

/-- The single error kind of the program: an OS-level failure of the file
open or the file write (`OSError` in the runtime of the source language). -/
inductive FileSystemError where
  | notWritable
  | diskFull
  | invalidPath
deriving DecidableEq, Repr

/-- Filesystem state: the contents on disk (a partial map from names to
text contents) and the handles currently held open by the process. -/
structure FSState where
  files : String → Option String
  openHandles : List String

/-- Fault oracle for one invocation: whether the `open(filename, 'w')` call
fails (permission denied, invalid path) and whether the `f.write(content)`
call fails (disk full). `none` means the call succeeds. -/
structure IOOracle where
  openFailure : Option FileSystemError
  writeFailure : Option FileSystemError

/-- Outcome of one call to the operation: the filesystem state after the
call and either the returned filename or the propagated error. -/
structure RunOutcome where
  state : FSState
  result : Except FileSystemError String

/-- Model of `create_hello_world_file` (lines 3–21 of the source), with the two
`datetime.now()` reads passed in as `t1` and `t2` and the I/O faults
decided by the oracle `o`.

`with open(filename, 'w') as f: f.write(content)` acquires the handle,
performs the single write, and the `with` block releases the handle on both
the normal path and the path where the write raises; an error from either
call propagates (there is no `try`/`except` in the source). -/
def create_hello_world_file (o : IOOracle) (t1 t2 : DateTime) (s : FSState) :
    RunOutcome :=
  let filename := filenameOf t1
  let content := contentOf t2
  match o.openFailure with
  | some e => { state := s, result := Except.error e }
  | none =>
    let sAcq : FSState := { s with openHandles := filename :: s.openHandles }
    match o.writeFailure with
    | some e =>
      { state := { sAcq with openHandles := s.openHandles },
        result := Except.error e }
    | none =>
      let sWr : FSState :=
        { sAcq with
          files := fun n => if n = filename then some content else s.files n }
      { state := { sWr with openHandles := s.openHandles },
        result := Except.ok filename }

/-- Result of one run of the whole program. -/
structure ProgResult where
  fs : FSState
  stdout : List String
  exitCode : Nat

/-- The `__main__` block (lines 23–25): call the operation and print
`Created file: <filename>`. An uncaught exception reaches the process
boundary and Python terminates the process with exit status 1, printing a
traceback to standard error (nothing to standard output). -/
def run_program (o : IOOracle) (t1 t2 : DateTime) (s : FSState) : ProgResult :=
  let r := create_hello_world_file o t1 t2 s
  match r.result with
  | Except.ok created_file =>
    { fs := r.state, stdout := ["Created file: " ++ created_file],
      exitCode := 0 }
  | Except.error _ =>
    { fs := r.state, stdout := [], exitCode := 1 }

/-- The oracle of a run where both the open and the write succeed. -/
def successOracle : IOOracle := { openFailure := none, writeFailure := none }

/-- An empty filesystem: no files, no open handles. -/
def emptyFS : FSState := { files := fun _ => none, openHandles := [] }

/-! ### Decidable pattern matchers for the textual patterns of the spec -/

/-- All characters in the list are decimal digits. -/
def digitsOnly (l : List Char) : Bool := l.all Char.isDigit

/-- The regular-expression pattern `hello_world_\d\x7b8\x7d_\d\x7b6\x7d\.md`
from §8 of the spec, as a decidable whole-string matcher. -/
def matchesFilenamePattern (s : String) : Bool :=
  let l := s.data
  l.length = 30 &&
  (l.take 12 == "hello_world_".data) &&
  digitsOnly ((l.drop 12).take 8) &&
  ((l.drop 20).take 1 == ['_']) &&
  digitsOnly ((l.drop 21).take 6) &&
  (l.drop 27 == ['.', 'm', 'd'])

/-- The display-timestamp pattern `YYYY-MM-DD HH:MM:SS` from §8 of the
spec (four digits, dash, two digits, dash, two digits, space, two digits,
colon, two digits, colon, two digits), as a decidable matcher. -/
def matchesTimestampDisplay (s : String) : Bool :=
  let l := s.data
  l.length = 19 &&
  digitsOnly (l.take 4) && ((l.drop 4).take 1 == ['-']) &&
  digitsOnly ((l.drop 5).take 2) && ((l.drop 7).take 1 == ['-']) &&
  digitsOnly ((l.drop 8).take 2) && ((l.drop 10).take 1 == [' ']) &&
  digitsOnly ((l.drop 11).take 2) && ((l.drop 13).take 1 == [':']) &&
  digitsOnly ((l.drop 14).take 2) && ((l.drop 16).take 1 == [':']) &&
  digitsOnly (l.drop 17)

/-- The timestamp of the example scenario in §8 of the spec:
calendar time 2024-03-15 10:30:45. -/
def exampleTime : DateTime := ⟨2024, 3, 15, 10, 30, 45⟩

/-! ### Helper lemmas -/

/-- Characters produced by `Nat.digitChar` from values below ten are
decimal digits. -/
theorem digitChar_isDigit {d : Nat} (h : d < 10) :
    (Nat.digitChar d).isDigit = true := by
  interval_cases d <;> decide

/-! ### The claims -/

/-- C1: invoking the operation when both clock reads return calendar time
2024-03-15 10:30:45 returns the filename `hello_world_20240315_103045.md`
and writes a file whose content is exactly the three-part markdown block of
the example scenario of the spec. -/
theorem example_scenario :
    (create_hello_world_file successOracle exampleTime exampleTime emptyFS).result
      = Except.ok "hello_world_20240315_103045.md" ∧
    (create_hello_world_file successOracle exampleTime exampleTime emptyFS).state.files
        "hello_world_20240315_103045.md"
      = some "# Hello World\n\nGenerated at: 2024-03-15 10:30:45\n\n**Message:** Hello World!\n" := by
  constructor <;> rfl

/-- C2: for every invocation, the content built by the operation is the
markdown document consisting of the heading `# Hello World`, a line
`Generated at: ` followed by the second clock read rendered as
`YYYY-MM-DD HH:MM:SS`, and the bold line holding the exact substring
`**Message:** Hello World!`. -/
theorem content_structure (t2 : DateTime) (h : t2.Valid) :
    contentOf t2 =
      "# Hello World" ++ "\n\n" ++ "Generated at: " ++ fmtDisplay t2 ++ "\n\n" ++
        "**Message:** Hello World!" ++ "\n" ∧
    matchesTimestampDisplay (fmtDisplay t2) = true := by
  obtain ⟨hy1, hy2, hm1, hm2, hd1, hd2, hh, hmi, hs⟩ := h
  refine ⟨rfl, ?_⟩
  show matchesTimestampDisplay
      (⟨pad4 t2.year ++ ['-'] ++ pad2 t2.month ++ ['-'] ++ pad2 t2.day ++ [' '] ++
        pad2 t2.hour ++ [':'] ++ pad2 t2.minute ++ [':'] ++ pad2 t2.second⟩ : String) = true
  simp [matchesTimestampDisplay, digitsOnly, pad4, pad2, List.all,
    digitChar_isDigit (by omega : t2.year / 1000 < 10),
    digitChar_isDigit (by omega : t2.year / 100 % 10 < 10),
    digitChar_isDigit (by omega : t2.year / 10 % 10 < 10),
    digitChar_isDigit (by omega : t2.year % 10 < 10),
    digitChar_isDigit (by omega : t2.month / 10 < 10),
    digitChar_isDigit (by omega : t2.month % 10 < 10),
    digitChar_isDigit (by omega : t2.day / 10 < 10),
    digitChar_isDigit (by omega : t2.day % 10 < 10),
    digitChar_isDigit (by omega : t2.hour / 10 < 10),
    digitChar_isDigit (by omega : t2.hour % 10 < 10),
    digitChar_isDigit (by omega : t2.minute / 10 < 10),
    digitChar_isDigit (by omega : t2.minute % 10 < 10),
    digitChar_isDigit (by omega : t2.second / 10 < 10),
    digitChar_isDigit (by omega : t2.second % 10 < 10)]

/-- Witness for C2 at the example-scenario timestamp. -/
theorem content_structure_witness :
    DateTime.Valid exampleTime ∧
    (contentOf exampleTime =
      "# Hello World" ++ "\n\n" ++ "Generated at: " ++ fmtDisplay exampleTime ++ "\n\n" ++
        "**Message:** Hello World!" ++ "\n" ∧
     matchesTimestampDisplay (fmtDisplay exampleTime) = true) :=
  ⟨by decide, content_structure exampleTime (by decide)⟩

/-- C3: for every invocation, the returned filename is
`hello_world_` ++ the first clock read formatted as `YYYYMMDD_HHMMSS` ++
`.md`, and it matches the pattern `hello_world_\d\x7b8\x7d_\d\x7b6\x7d\.md`. -/
theorem filename_pattern (t1 : DateTime) (h : t1.Valid) :
    filenameOf t1 = "hello_world_" ++ fmtCompact t1 ++ ".md" ∧
    matchesFilenamePattern (filenameOf t1) = true := by
  obtain ⟨hy1, hy2, hm1, hm2, hd1, hd2, hh, hmi, hs⟩ := h
  refine ⟨rfl, ?_⟩
  show matchesFilenamePattern
      (⟨['h','e','l','l','o','_','w','o','r','l','d','_'] ++
        pad4 t1.year ++ pad2 t1.month ++ pad2 t1.day ++ ['_'] ++
        pad2 t1.hour ++ pad2 t1.minute ++ pad2 t1.second ++ ['.','m','d']⟩ : String) = true
  simp [matchesFilenamePattern, digitsOnly, pad4, pad2, List.all,
    digitChar_isDigit (by omega : t1.year / 1000 < 10),
    digitChar_isDigit (by omega : t1.year / 100 % 10 < 10),
    digitChar_isDigit (by omega : t1.year / 10 % 10 < 10),
    digitChar_isDigit (by omega : t1.year % 10 < 10),
    digitChar_isDigit (by omega : t1.month / 10 < 10),
    digitChar_isDigit (by omega : t1.month % 10 < 10),
    digitChar_isDigit (by omega : t1.day / 10 < 10),
    digitChar_isDigit (by omega : t1.day % 10 < 10),
    digitChar_isDigit (by omega : t1.hour / 10 < 10),
    digitChar_isDigit (by omega : t1.hour % 10 < 10),
    digitChar_isDigit (by omega : t1.minute / 10 < 10),
    digitChar_isDigit (by omega : t1.minute % 10 < 10),
    digitChar_isDigit (by omega : t1.second / 10 < 10),
    digitChar_isDigit (by omega : t1.second % 10 < 10)]

/-- Witness for C3 at the example-scenario timestamp. -/
theorem filename_pattern_witness :
    DateTime.Valid exampleTime ∧
    (filenameOf exampleTime = "hello_world_" ++ fmtCompact exampleTime ++ ".md" ∧
     matchesFilenamePattern (filenameOf exampleTime) = true) :=
  ⟨by decide, filename_pattern exampleTime (by decide)⟩

/-- C4: after a successful invocation, a file named exactly the returned
filename exists and holds exactly the built content, and the operation
returns that filename. -/
theorem file_written_on_success (o : IOOracle) (t1 t2 : DateTime) (s : FSState)
    (h1 : o.openFailure = none) (h2 : o.writeFailure = none) :
    (create_hello_world_file o t1 t2 s).result = Except.ok (filenameOf t1) ∧
    (create_hello_world_file o t1 t2 s).state.files (filenameOf t1)
      = some (contentOf t2) := by
  simp [create_hello_world_file, h1, h2]

/-- Witness for C4: a successful run at the example-scenario timestamp on
an empty filesystem. -/
theorem file_written_on_success_witness :
    successOracle.openFailure = none ∧ successOracle.writeFailure = none ∧
    ((create_hello_world_file successOracle exampleTime exampleTime emptyFS).result
        = Except.ok (filenameOf exampleTime) ∧
     (create_hello_world_file successOracle exampleTime exampleTime emptyFS).state.files
        (filenameOf exampleTime) = some (contentOf exampleTime)) :=
  ⟨rfl, rfl,
    file_written_on_success successOracle exampleTime exampleTime emptyFS rfl rfl⟩

/-- C5: two successive successful invocations whose first clock reads format
to the same `YYYYMMDD_HHMMSS` string return the same filename, and after the
second invocation that file holds exactly the content of the second
invocation (the write replaces, it does not append). -/
theorem same_second_overwrite (o1 o2 : IOOracle) (t1 t2 u1 u2 : DateTime)
    (s : FSState)
    (hfmt : fmtCompact t1 = fmtCompact u1)
    (h1 : o1.openFailure = none) (h2 : o1.writeFailure = none)
    (h3 : o2.openFailure = none) (h4 : o2.writeFailure = none) :
    filenameOf t1 = filenameOf u1 ∧
    (create_hello_world_file o2 u1 u2
        (create_hello_world_file o1 t1 t2 s).state).state.files (filenameOf t1)
      = some (contentOf u2) := by
  have hname : filenameOf t1 = filenameOf u1 := by
    unfold filenameOf; rw [hfmt]
  refine ⟨hname, ?_⟩
  simp [create_hello_world_file, h1, h2, h3, h4, hname]

/-- Witness for C5: two successful invocations in the same calendar second
at the example-scenario timestamp; the second content stands alone. -/
theorem same_second_overwrite_witness :
    fmtCompact exampleTime = fmtCompact exampleTime ∧
    successOracle.openFailure = none ∧ successOracle.writeFailure = none ∧
    (filenameOf exampleTime = filenameOf exampleTime ∧
     (create_hello_world_file successOracle exampleTime exampleTime
        (create_hello_world_file successOracle exampleTime exampleTime
          emptyFS).state).state.files (filenameOf exampleTime)
       = some (contentOf exampleTime)) :=
  ⟨rfl, rfl, rfl,
    same_second_overwrite successOracle successOracle exampleTime exampleTime
      exampleTime exampleTime emptyFS rfl rfl rfl rfl rfl⟩

/-- C7: the run exits with status 0 exactly when both the open and the write
succeed, and with status 1 when either fails; the operation yields the
returned filename exactly in the success case and a `FileSystemError`
otherwise. -/
theorem exit_code_semantics (o : IOOracle) (t1 t2 : DateTime) (s : FSState) :
    (run_program o t1 t2 s).exitCode =
      (if o.openFailure.isNone && o.writeFailure.isNone then 0 else 1) ∧
    (create_hello_world_file o t1 t2 s).result.isOk =
      (o.openFailure.isNone && o.writeFailure.isNone) := by
  unfold run_program create_hello_world_file
  rcases o with ⟨of, wf⟩
  cases of <;> cases wf <;> simp [Except.isOk, Except.toBool]

/-- C8: on a successful run, the program prints exactly one line to standard
output, namely `Created file: ` followed by the returned filename. -/
theorem stdout_on_success (o : IOOracle) (t1 t2 : DateTime) (s : FSState)
    (h1 : o.openFailure = none) (h2 : o.writeFailure = none) :
    (run_program o t1 t2 s).stdout = ["Created file: " ++ filenameOf t1] := by
  simp [run_program, create_hello_world_file, h1, h2]

/-- Witness for C8: the successful run at the example-scenario timestamp. -/
theorem stdout_on_success_witness :
    successOracle.openFailure = none ∧ successOracle.writeFailure = none ∧
    (run_program successOracle exampleTime exampleTime emptyFS).stdout
      = ["Created file: " ++ filenameOf exampleTime] :=
  ⟨rfl, rfl, stdout_on_success successOracle exampleTime exampleTime emptyFS rfl rfl⟩

/-- C9: after the operation, every handle it opened has been released, on
the normal path, on the path where the write raises, and on the path where
the open itself fails: the set of open handles is exactly what it was before
the call. -/
theorem handles_released (o : IOOracle) (t1 t2 : DateTime) (s : FSState) :
    (create_hello_world_file o t1 t2 s).state.openHandles = s.openHandles := by
  unfold create_hello_world_file
  rcases o with ⟨of, wf⟩
  cases of <;> cases wf <;> rfl

/-- C10: for every invocation, the content ends with a newline character:
the last character of the built content is `\n`, immediately after the
message line. -/
theorem content_trailing_newline (t2 : DateTime) :
    (contentOf t2).data.getLast? = some (Char.ofNat 10) := by
  show (⟨("# Hello World\n\nGenerated at: ").data ++ (fmtDisplay t2).data ++
      ("\n\n**Message:** Hello World!\n").data⟩ : String).data.getLast?
    = some (Char.ofNat 10)
  rfl

end HelloWorld
